import Mathlib

/-!
Shallow embedding of the GMG real-time drum-synchronization core
(`src/main.py`, with the near-duplicate variant in `src/function.py`).

Python floats are modelled as rationals (ℚ); the wall clock read by
`time.time()` inside `PIDController.update` is passed explicitly as the
`now` argument; `None` returns become `Option.none`.
-/

/-- State of `PIDController` (`main.py` lines 71-83; identical fields in
`function.py` lines 617-629). `prev_time : Option ℚ` models the
`self.prev_time = None` initialisation. -/
structure PIDState where
  Kp : ℚ
  Ki : ℚ
  Kd : ℚ
  integral : ℚ
  prev_error : ℚ
  prev_time : Option ℚ
  bpm : ℚ
  bpm_min : ℚ
  bpm_max : ℚ

/-- The control-step duration computed at the top of `update`
(`main.py` lines 92-95): `0.01` on the first call, otherwise
`max(now - prev_time, 1e-4)`. -/
def pidDt (s : PIDState) (now : ℚ) : ℚ :=
  match s.prev_time with
  | none => 1 / 100
  | some t => max (now - t) (1 / 10000)

/-- The integral accumulator after `self.integral += error * dt`
(`main.py` line 100). -/
def pidIntegral (s : PIDState) (error now : ℚ) : ℚ :=
  s.integral + error * pidDt s now

/-- The derivative term `D = (error - self.prev_error) / dt`
(`main.py` line 101). -/
def pidD (s : PIDState) (error now : ℚ) : ℚ :=
  (error - s.prev_error) / pidDt s now

/-- `delta = Kp*P + Ki*integral + Kd*D` (`main.py` line 104; the
correction is added with positive sign in this variant). -/
def pidDelta (s : PIDState) (error now : ℚ) : ℚ :=
  s.Kp * error + s.Ki * pidIntegral s error now + s.Kd * pidD s error now

/-- The unclamped tempo `self.bpm + delta` (`main.py` line 107). -/
def pidRaw (s : PIDState) (error now : ℚ) : ℚ :=
  s.bpm + pidDelta s error now

/-- `PIDController.update` of `main.py` (lines 85-115): PID step, add the
delta, clamp to `[bpm_min, bpm_max]` and reset the integral to 0 on the
clamping branches. Returns the new bpm together with the new state. -/
def PIDController.update (s : PIDState) (error now : ℚ) : ℚ × PIDState :=
  if pidRaw s error now < s.bpm_min then
    (s.bpm_min,
     { s with prev_time := some now, prev_error := error,
              integral := 0, bpm := s.bpm_min })
  else if s.bpm_max < pidRaw s error now then
    (s.bpm_max,
     { s with prev_time := some now, prev_error := error,
              integral := 0, bpm := s.bpm_max })
  else
    (pidRaw s error now,
     { s with prev_time := some now, prev_error := error,
              integral := pidIntegral s error now, bpm := pidRaw s error now })

/-- The unclamped tempo of the `function.py` variant (lines 652-654):
the same delta but negated, `self.bpm + (-(Kp*P + Ki*integral + Kd*D))`. -/
def pidRawFn (s : PIDState) (error now : ℚ) : ℚ :=
  s.bpm + (-(pidDelta s error now))

/-- `PIDController.update` of `function.py` (lines 631-664): identical to
the `main.py` variant except that the correction is negated,
`delta = -(Kp*P + Ki*integral + Kd*D)` (line 652). -/
def PIDControllerFn.update (s : PIDState) (error now : ℚ) : ℚ × PIDState :=
  if pidRawFn s error now < s.bpm_min then
    (s.bpm_min,
     { s with prev_time := some now, prev_error := error,
              integral := 0, bpm := s.bpm_min })
  else if s.bpm_max < pidRawFn s error now then
    (s.bpm_max,
     { s with prev_time := some now, prev_error := error,
              integral := 0, bpm := s.bpm_max })
  else
    (pidRawFn s error now,
     { s with prev_time := some now, prev_error := error,
              integral := pidIntegral s error now, bpm := pidRawFn s error now })

/-- A finite sequence of `update` calls (`main.py` variant), each given as
an `(error, now)` pair, folded over the controller state. -/
def PIDController.runUpdates (s : PIDState) (l : List (ℚ × ℚ)) : PIDState :=
  l.foldl (fun st p => (PIDController.update st p.1 p.2).2) s

/-- Parsed reference data as returned by `load_drum_sync_data`
(`main.py` lines 11-65): the three header floats, the derived
`time_per_array_element = samples_per_array_element / sensor_rate_hz`
(line 55), and the three beat arrays. -/
structure RefData where
  bpm : ℚ
  sensor_rate_hz : ℚ
  samples_per_array_element : ℚ
  time_per_array_element : ℚ
  kick : List ℤ
  snare : List ℤ
  hit : List ℤ

/-- The two ways `load_drum_sync_data` can raise: the explicit
`ValueError` for a missing header field (`main.py` lines 51-52), and the
`ZeroDivisionError` the division `samples_per_array_element /
sensor_rate_hz` raises when `sensor_rate_hz = 0` (line 55). -/
inductive LoadFailure where
  | valueError : LoadFailure
  | zeroDivisionError : LoadFailure
deriving DecidableEq

/-- `load_drum_sync_data` (`main.py` lines 11-65) after file parsing: the
three header fields are `none` when absent from the file. The function
raises `ValueError` exactly when one of `bpm`, `sensor_rate_hz`,
`samples_per_array_element` is missing (lines 51-52); then the division
at line 55 raises `ZeroDivisionError` when `sensor_rate_hz = 0` (the
explicit guard here models that raise, since `/` is total on ℚ); no
other validation is performed. -/
def load_drum_sync_data (bpmF rateF spaeF : Option ℚ)
    (kick snare hit : List ℤ) : Except LoadFailure RefData :=
  match bpmF, rateF, spaeF with
  | some b, some r, some s =>
      if r = 0 then Except.error LoadFailure.zeroDivisionError
      else Except.ok ⟨b, r, s, s / r, kick, snare, hit⟩
  | _, _, _ => Except.error LoadFailure.valueError

/-- State of `BeatMatcher` (`main.py` lines 121-137): the slot duration
`dt`, the three fixed instrument tracks of the `self.arr` dict, and the
per-instrument cursor dict `self.next_idx` (every key starts at 0). -/
structure BeatMatcher where
  dt : ℚ
  kick : List ℤ
  snare : List ℤ
  hit : List ℤ
  next_idx : String → ℕ

/-- `BeatMatcher.__init__` (`main.py` lines 127-137): copies `dt` and the
three tracks from the loaded reference data and starts every cursor at 0.
No validation of `dt` or of track emptiness is performed. -/
def BeatMatcher.init (ref : RefData) : BeatMatcher :=
  ⟨ref.time_per_array_element, ref.kick, ref.snare, ref.hit, fun _ => 0⟩

/-- Lookup in the `self.arr` dict, whose keys are always exactly
`kick`, `snare`, `hit` (`main.py` lines 130-134); any other instrument
string is absent (`inst not in self.arr`). -/
def BeatMatcher.track (m : BeatMatcher) (inst : String) : Option (List ℤ) :=
  if inst = "kick" then some m.kick
  else if inst = "snare" then some m.snare
  else if inst = "hit" then some m.hit
  else none

/-- Scan helper for `_find_next_beat`: first position `≥ i` (numbering the
head of the list `i`) holding a 1. -/
def findBeatAux : List ℤ → ℕ → Option ℕ
  | [], _ => none
  | a :: rest, i => if a = 1 then some i else findBeatAux rest (i + 1)

/-- `BeatMatcher._find_next_beat` (`main.py` lines 139-147): the first
index `≥ start` whose flag is 1, `none` when no such index remains. -/
def find_next_beat (arr : List ℤ) (start : ℕ) : Option ℕ :=
  findBeatAux (arr.drop start) start

/-- `BeatMatcher.compute_error` (`main.py` lines 149-168, `function.py`
lines 693-706): unknown instrument returns `None`; otherwise scan from
the cursor for the next flagged slot, return `None` when exhausted, else
return `(error, t_ref)` with `t_ref = idx * dt`, `error = t_actual - t_ref`
and advance the cursor to `idx + 1`. (`main.py` returns only `error`;
`function.py` also returns `t_ref`. The state transition is identical.)
The new matcher state is returned alongside the result. -/
def BeatMatcher.compute_error (m : BeatMatcher) (inst : String)
    (t_actual : ℚ) : Option (ℚ × ℚ) × BeatMatcher :=
  match m.track inst with
  | none => (none, m)
  | some arr =>
    match find_next_beat arr (m.next_idx inst) with
    | none => (none, m)
    | some idx =>
        (some (t_actual - idx * m.dt, idx * m.dt),
         { m with next_idx := Function.update m.next_idx inst (idx + 1) })

/-- A finite sequence of `compute_error` calls, each an
`(instrument, t_actual)` pair, folded over the matcher state. -/
def BeatMatcher.runCalls (m : BeatMatcher) (l : List (String × ℚ)) : BeatMatcher :=
  l.foldl (fun st p => (st.compute_error p.1 p.2).2) m

/-- Result of one iteration of the `SimpleMetronome.run` polling loop
(`main.py` lines 253-266). `emitted` records whether a tick was printed,
`interval` records the value `60 / bpm` when the loop body reached that
computation (`none` when the non-positive-bpm guard skipped it), and
`next_tick` is the scheduled time after the iteration. -/
structure MetroStep where
  emitted : Bool
  interval : Option ℚ
  next_tick : ℚ

/-- One iteration of `SimpleMetronome.run` (`main.py` lines 253-266,
identical in `function.py` lines 786-799): read `bpm`; if `bpm <= 0`
sleep and `continue` (no tick, no interval computation); otherwise
compute `interval = 60 / bpm` and emit a tick, rescheduling
`next_tick = now + interval`, exactly when `now >= next_tick`. -/
def SimpleMetronome.step (bpm now next_tick : ℚ) : MetroStep :=
  if bpm ≤ 0 then ⟨false, none, next_tick⟩
  else
    let interval := 60 / bpm
    if next_tick ≤ now then ⟨true, some interval, now + interval⟩
    else ⟨false, some interval, next_tick⟩

/-! ## Helper lemmas about `PIDController.update` -/

/-- `update` never changes the bounds. -/
lemma update_bpm_min (s : PIDState) (e now : ℚ) :
    ((PIDController.update s e now).2).bpm_min = s.bpm_min := by
  unfold PIDController.update
  split_ifs <;> rfl

lemma update_bpm_max (s : PIDState) (e now : ℚ) :
    ((PIDController.update s e now).2).bpm_max = s.bpm_max := by
  unfold PIDController.update
  split_ifs <;> rfl

/-- After any single `update` call the stored bpm lies in the bounds,
provided the bounds are ordered. -/
lemma update_bpm_bounds (s : PIDState) (e now : ℚ)
    (h : s.bpm_min ≤ s.bpm_max) :
    s.bpm_min ≤ ((PIDController.update s e now).2).bpm ∧
      ((PIDController.update s e now).2).bpm ≤ s.bpm_max := by
  unfold PIDController.update
  split_ifs with h1 h2
  · exact ⟨le_refl _, h⟩
  · exact ⟨h, le_refl _⟩
  · exact ⟨le_of_not_lt h1, le_of_not_lt h2⟩

lemma runUpdates_bpm_min (s : PIDState) (l : List (ℚ × ℚ)) :
    (PIDController.runUpdates s l).bpm_min = s.bpm_min := by
  induction l generalizing s with
  | nil => rfl
  | cons x xs ih =>
      show (PIDController.runUpdates (PIDController.update s x.1 x.2).2 xs).bpm_min = _
      rw [ih, update_bpm_min]

lemma runUpdates_bpm_max (s : PIDState) (l : List (ℚ × ℚ)) :
    (PIDController.runUpdates s l).bpm_max = s.bpm_max := by
  induction l generalizing s with
  | nil => rfl
  | cons x xs ih =>
      show (PIDController.runUpdates (PIDController.update s x.1 x.2).2 xs).bpm_max = _
      rw [ih, update_bpm_max]

/-- Once the bpm is in ordered bounds it stays there under any further
sequence of updates. -/
lemma runUpdates_bounds_of_bounds (l : List (ℚ × ℚ)) (s : PIDState)
    (h : s.bpm_min ≤ s.bpm_max)
    (hlo : s.bpm_min ≤ s.bpm) (hhi : s.bpm ≤ s.bpm_max) :
    s.bpm_min ≤ (PIDController.runUpdates s l).bpm ∧
      (PIDController.runUpdates s l).bpm ≤ s.bpm_max := by
  induction l generalizing s with
  | nil => exact ⟨hlo, hhi⟩
  | cons x xs ih =>
      show s.bpm_min ≤ (PIDController.runUpdates (PIDController.update s x.1 x.2).2 xs).bpm ∧ _
      have hb := update_bpm_bounds s x.1 x.2 h
      have hmin := update_bpm_min s x.1 x.2
      have hmax := update_bpm_max s x.1 x.2
      have h1 := ih (PIDController.update s x.1 x.2).2
        (by rw [hmin, hmax]; exact h)
        (by rw [hmin]; exact hb.1) (by rw [hmax]; exact hb.2)
      rw [hmin, hmax] at h1
      exact h1

/-- C1: `TempoController.tempo` is always within `[tempoMin, tempoMax]`
after any nonempty finite sequence of `update` calls, for arbitrary error
values (extreme magnitudes included), provided the controller was
constructed with `tempoMin ≤ tempoMax`. -/
theorem pid_tempo_always_in_bounds (s : PIDState) (l : List (ℚ × ℚ))
    (hord : s.bpm_min ≤ s.bpm_max) (hne : l ≠ []) :
    s.bpm_min ≤ (PIDController.runUpdates s l).bpm ∧
      (PIDController.runUpdates s l).bpm ≤ s.bpm_max := by
  cases l with
  | nil => exact absurd rfl hne
  | cons x xs =>
      show s.bpm_min ≤ (PIDController.runUpdates (PIDController.update s x.1 x.2).2 xs).bpm ∧ _
      have hb := update_bpm_bounds s x.1 x.2 hord
      have hmin := update_bpm_min s x.1 x.2
      have hmax := update_bpm_max s x.1 x.2
      have h1 := runUpdates_bounds_of_bounds xs (PIDController.update s x.1 x.2).2
        (by rw [hmin, hmax]; exact hord)
        (by rw [hmin]; exact hb.1) (by rw [hmax]; exact hb.2)
      rw [hmin, hmax] at h1
      exact h1

/-- Witness for C1: a concrete controller hit with the extreme errors
`+1e6` then `-1e6` ends (and stays) inside `[40, 240]`. -/
theorem pid_tempo_always_in_bounds_witness :
    (40 : ℚ) ≤ 240 ∧ ([((1000000 : ℚ), (0 : ℚ)), ((-1000000 : ℚ), (1 : ℚ))] ≠
      ([] : List (ℚ × ℚ))) ∧
    (40 : ℚ) ≤ (PIDController.runUpdates
        ⟨30, 0, 5, 0, 0, none, 120, 40, 240⟩
        [((1000000 : ℚ), (0 : ℚ)), ((-1000000 : ℚ), (1 : ℚ))]).bpm ∧
      (PIDController.runUpdates
        ⟨30, 0, 5, 0, 0, none, 120, 40, 240⟩
        [((1000000 : ℚ), (0 : ℚ)), ((-1000000 : ℚ), (1 : ℚ))]).bpm ≤ 240 :=
  ⟨by norm_num, by simp,
   pid_tempo_always_in_bounds ⟨30, 0, 5, 0, 0, none, 120, 40, 240⟩
     [((1000000 : ℚ), (0 : ℚ)), ((-1000000 : ℚ), (1 : ℚ))]
     (by norm_num) (by simp)⟩

/-- C4: with ordered bounds, an update whose raw tempo falls below
`bpm_min` stores `bpm_min` and resets the integral to exactly 0; one whose
raw tempo exceeds `bpm_max` stores `bpm_max` and resets the integral to
exactly 0; and an update needing no clamping stores the raw tempo and the
accumulated integral `integral + error*dt` (no reset). -/
theorem pid_clamp_resets_integral (s : PIDState) (error now : ℚ)
    (hord : s.bpm_min ≤ s.bpm_max) :
    (pidRaw s error now < s.bpm_min →
      (PIDController.update s error now).2.bpm = s.bpm_min ∧
      (PIDController.update s error now).2.integral = 0) ∧
    (s.bpm_max < pidRaw s error now →
      (PIDController.update s error now).2.bpm = s.bpm_max ∧
      (PIDController.update s error now).2.integral = 0) ∧
    (s.bpm_min ≤ pidRaw s error now → pidRaw s error now ≤ s.bpm_max →
      (PIDController.update s error now).2.bpm = pidRaw s error now ∧
      (PIDController.update s error now).2.integral = pidIntegral s error now) := by
  unfold PIDController.update
  split_ifs with h1 h2
  · exact ⟨fun _ => ⟨rfl, rfl⟩,
      fun hm => absurd (lt_trans hm h1) (not_lt.mpr hord),
      fun hge _ => absurd h1 (not_lt.mpr hge)⟩
  · exact ⟨fun hlt => absurd hlt h1,
      fun _ => ⟨rfl, rfl⟩,
      fun _ hle => absurd h2 (not_lt.mpr hle)⟩
  · exact ⟨fun hlt => absurd hlt h1,
      fun hm => absurd hm h2,
      fun _ _ => ⟨rfl, rfl⟩⟩

/-- Witness for C4: a controller at bpm 120 fed error 200 overshoots
`bpm_max = 240` (raw tempo 320), is clamped to 240 and has its integral
reset to 0. -/
theorem pid_clamp_resets_integral_witness :
    (240 : ℚ) < pidRaw ⟨1, 0, 0, 0, 0, none, 120, 40, 240⟩ 200 0 ∧
    (PIDController.update ⟨1, 0, 0, 0, 0, none, 120, 40, 240⟩ 200 0).2.bpm = 240 ∧
    (PIDController.update ⟨1, 0, 0, 0, 0, none, 120, 40, 240⟩ 200 0).2.integral = 0 :=
  ⟨by norm_num [pidRaw, pidDelta, pidIntegral, pidD, pidDt],
   (pid_clamp_resets_integral ⟨1, 0, 0, 0, 0, none, 120, 40, 240⟩ 200 0
      (by norm_num)).2.1
     (by norm_num [pidRaw, pidDelta, pidIntegral, pidD, pidDt])⟩

/-- Counterexample for C6 as stated: on the very first
`update(error=1.0)` of `PID(Kp=10, Ki=0, Kd=0, 120, 40, 240)` the stored
integral accumulator is NOT unchanged — `self.integral += error*dt` runs
regardless of `Ki`, taking it from 0 to `1 * 0.01 = 0.01`. -/
theorem pid_first_update_integral_changes_cex :
    (⟨10, 0, 0, 0, 0, none, 120, 40, 240⟩ : PIDState).integral = 0 ∧
    (PIDController.update ⟨10, 0, 0, 0, 0, none, 120, 40, 240⟩ 1 0).2.integral
      = 1 / 100 ∧
    (0 : ℚ) < 1 / 100 := by
  refine ⟨rfl, ?_, by norm_num⟩
  norm_num [PIDController.update, pidRaw, pidDelta, pidIntegral, pidD, pidDt]

/-- C6 (amended): the first `update(error=1.0)` of
`PID(Kp=10, Ki=0, Kd=0, 120, 40, 240)` returns tempo exactly 130
(`delta = Kp*error = 10` with the first-call default `dt = 0.01`), which
lies within `[40, 240]`; the stored integral becomes `error*dt = 0.01`
(accumulated regardless of `Ki`; with `Ki = 0` it does not affect the
tempo). Stated for an arbitrary wall-clock reading `now`. -/
theorem pid_first_update_scenario (now : ℚ) :
    (PIDController.update ⟨10, 0, 0, 0, 0, none, 120, 40, 240⟩ 1 now).1 = 130 ∧
    (40 : ℚ) ≤ 130 ∧ (130 : ℚ) ≤ 240 ∧
    (PIDController.update ⟨10, 0, 0, 0, 0, none, 120, 40, 240⟩ 1 now).2.integral
      = 1 / 100 := by
  have hraw : pidRaw ⟨10, 0, 0, 0, 0, none, 120, 40, 240⟩ 1 now = 130 := by
    norm_num [pidRaw, pidDelta, pidIntegral, pidD, pidDt]
  have hint : pidIntegral ⟨10, 0, 0, 0, 0, none, 120, 40, 240⟩ 1 now = 1 / 100 := by
    norm_num [pidIntegral, pidDt]
  unfold PIDController.update
  rw [hraw]
  norm_num [hint]

/-- Counterexample for C2 as stated: in the `function.py` variant
(also cited by the claim) the correction is applied with negative sign,
so a positive error with non-negative gains and zero integral/derivative
contributions strictly DECREASES the tempo: from 120 to 119. -/
theorem pid_positive_error_fn_variant_cex :
    (⟨1, 0, 0, 0, 0, none, 120, 40, 240⟩ : PIDState).bpm = 120 ∧
    (PIDControllerFn.update ⟨1, 0, 0, 0, 0, none, 120, 40, 240⟩ 1 0).1 = 119 ∧
    (119 : ℚ) < 120 := by
  refine ⟨rfl, ?_, by norm_num⟩
  norm_num [PIDControllerFn.update, pidRawFn, pidDelta, pidIntegral, pidD, pidDt]

/-- C2 (amended): in the `main.py` variant the PID correction is added
with positive sign, so for an in-bounds tempo, non-negative gains,
positive error and non-negative integral and derivative contributions the
returned tempo is at least the tempo before the call. -/
theorem pid_positive_error_raises_tempo (s : PIDState) (error now : ℚ)
    (hlo : s.bpm_min ≤ s.bpm) (hhi : s.bpm ≤ s.bpm_max)
    (hKp : 0 ≤ s.Kp) (he : 0 < error)
    (hI : 0 ≤ s.Ki * pidIntegral s error now)
    (hD : 0 ≤ s.Kd * pidD s error now) :
    s.bpm ≤ (PIDController.update s error now).1 := by
  have hdelta : 0 ≤ pidDelta s error now := by
    unfold pidDelta
    have h1 : 0 ≤ s.Kp * error := mul_nonneg hKp he.le
    linarith
  have hraw : s.bpm ≤ pidRaw s error now := by
    unfold pidRaw; linarith
  unfold PIDController.update
  split_ifs with h1 h2
  · show s.bpm ≤ s.bpm_min
    linarith
  · show s.bpm ≤ s.bpm_max
    exact hhi
  · show s.bpm ≤ pidRaw s error now
    exact hraw

/-- Witness for the amended C2: a concrete in-bounds controller with
`Kp = 1`, `Ki = Kd = 0` and error 1 does not lose tempo. -/
theorem pid_positive_error_raises_tempo_witness :
    (0 : ℚ) < 1 ∧
    (⟨1, 0, 0, 0, 0, none, 120, 40, 240⟩ : PIDState).bpm ≤
      (PIDController.update ⟨1, 0, 0, 0, 0, none, 120, 40, 240⟩ 1 0).1 :=
  ⟨by norm_num,
   pid_positive_error_raises_tempo ⟨1, 0, 0, 0, 0, none, 120, 40, 240⟩ 1 0
     (by norm_num) (by norm_num) (by norm_num) (by norm_num)
     (by norm_num [pidIntegral, pidDt])
     (by norm_num [pidD, pidDt])⟩

/-! ## Helper lemmas about `BeatMatcher` -/

lemma findBeatAux_ge (l : List ℤ) (i j : ℕ) (h : findBeatAux l i = some j) :
    i ≤ j := by
  induction l generalizing i with
  | nil => simp [findBeatAux] at h
  | cons a rest ih =>
      unfold findBeatAux at h
      split_ifs at h with ha
      · injection h with h
        omega
      · exact le_trans (Nat.le_succ i) (ih (i + 1) h)

/-- `_find_next_beat` never returns an index before `start`. -/
lemma find_next_beat_ge (arr : List ℤ) (start j : ℕ)
    (h : find_next_beat arr start = some j) : start ≤ j :=
  findBeatAux_ge _ _ _ h

/-- `compute_error` never changes `dt`. -/
lemma compute_error_dt (m : BeatMatcher) (inst : String) (t : ℚ) :
    ((m.compute_error inst t).2).dt = m.dt := by
  rcases htr : m.track inst with _ | arr
  · simp [BeatMatcher.compute_error, htr]
  · rcases hf : find_next_beat arr (m.next_idx inst) with _ | idx
    · simp [BeatMatcher.compute_error, htr, hf]
    · simp [BeatMatcher.compute_error, htr, hf]

/-- `compute_error` never decreases any instrument's cursor. -/
lemma compute_error_next_idx_mono (m : BeatMatcher) (inst : String) (t : ℚ)
    (j : String) :
    m.next_idx j ≤ ((m.compute_error inst t).2).next_idx j := by
  rcases htr : m.track inst with _ | arr
  · simp [BeatMatcher.compute_error, htr]
  · rcases hf : find_next_beat arr (m.next_idx inst) with _ | idx
    · simp [BeatMatcher.compute_error, htr, hf]
    · have hstart := find_next_beat_ge _ _ _ hf
      simp only [BeatMatcher.compute_error, htr, hf]
      by_cases hj : j = inst
      · subst hj
        simp [Function.update_same]
        omega
      · simp [Function.update_noteq hj]

/-- Shape of a successful `compute_error` call: the matched index comes
from `_find_next_beat` at the current cursor, `t_ref = idx * dt`, and the
cursor advances to `idx + 1`. -/
lemma compute_error_some_shape (m : BeatMatcher) (inst : String)
    (t e r : ℚ) (m' : BeatMatcher)
    (h : m.compute_error inst t = (some (e, r), m')) :
    ∃ arr idx, m.track inst = some arr ∧
      find_next_beat arr (m.next_idx inst) = some idx ∧
      r = idx * m.dt ∧ e = t - idx * m.dt ∧
      m'.next_idx inst = idx + 1 ∧ m'.dt = m.dt := by
  rcases htr : m.track inst with _ | arr
  · simp [BeatMatcher.compute_error, htr] at h
  · rcases hf : find_next_beat arr (m.next_idx inst) with _ | idx
    · simp [BeatMatcher.compute_error, htr, hf] at h
    · simp only [BeatMatcher.compute_error, htr, hf, Prod.mk.injEq,
        Option.some.injEq] at h
      refine ⟨arr, idx, rfl, hf, h.1.2.symm, h.1.1.symm, ?_, ?_⟩
      · rw [← h.2]
        simp [Function.update_same]
      · rw [← h.2]

lemma runCalls_dt (m : BeatMatcher) (l : List (String × ℚ)) :
    (BeatMatcher.runCalls m l).dt = m.dt := by
  induction l generalizing m with
  | nil => rfl
  | cons x xs ih =>
      show (BeatMatcher.runCalls (m.compute_error x.1 x.2).2 xs).dt = m.dt
      rw [ih, compute_error_dt]

lemma runCalls_next_idx_mono (m : BeatMatcher) (l : List (String × ℚ))
    (j : String) :
    m.next_idx j ≤ (BeatMatcher.runCalls m l).next_idx j := by
  induction l generalizing m with
  | nil => exact le_refl _
  | cons x xs ih =>
      exact le_trans (compute_error_next_idx_mono m x.1 x.2 j)
        (ih (m.compute_error x.1 x.2).2)

/-- C10: a `compute_error` call that produces no matched error value —
unknown instrument or exhausted track — leaves the entire matcher state
(dt, every track, every cursor) unchanged. -/
theorem compute_error_failure_preserves_state (m : BeatMatcher)
    (inst : String) (t : ℚ)
    (h : (m.compute_error inst t).1 = none) :
    (m.compute_error inst t).2 = m := by
  rcases htr : m.track inst with _ | arr
  · simp [BeatMatcher.compute_error, htr]
  · rcases hf : find_next_beat arr (m.next_idx inst) with _ | idx
    · simp [BeatMatcher.compute_error, htr, hf]
    · simp [BeatMatcher.compute_error, htr, hf] at h

/-- Concrete matcher for the C10 witness. -/
def c10M : BeatMatcher := ⟨1, [1], [], [], fun _ => 0⟩

/-- Witness for C10: querying the unknown instrument `piano` fails and
leaves the concrete matcher untouched. -/
theorem compute_error_failure_preserves_state_witness :
    (c10M.compute_error "piano" 0).1 = none ∧
    (c10M.compute_error "piano" 0).2 = c10M :=
  ⟨by simp [c10M, BeatMatcher.compute_error, BeatMatcher.track],
   compute_error_failure_preserves_state c10M "piano" 0
     (by simp [c10M, BeatMatcher.compute_error, BeatMatcher.track])⟩

/-- Concrete matcher for the C5 counterexample: the `kick` track `[0]`
exists but holds no flagged slot, so `kick` is exhausted from the start. -/
def c5M : BeatMatcher := ⟨1, [0], [], [], fun _ => 0⟩

/-- Counterexample for C5 as stated: `compute_error` returns `None` both
for the unknown instrument `piano` and for the exhausted known instrument
`kick`; the two conditions are NOT distinguishable by the returned value. -/
theorem unknown_inst_indistinguishable_cex :
    (c5M.compute_error "kick" 0).1 = none ∧
    (c5M.compute_error "piano" 0).1 = none ∧
    (c5M.compute_error "piano" 0).1 = (c5M.compute_error "kick" 0).1 := by
  refine ⟨?_, ?_, ?_⟩ <;>
    simp [c5M, BeatMatcher.compute_error, BeatMatcher.track,
      find_next_beat, findBeatAux]

/-- C5 (amended): an unknown instrument (one absent from the track dict)
makes `compute_error` return `None` with the state unchanged — the very
same value `NoReferenceLeft` produces, so the caller cannot tell the two
conditions apart from the result alone. -/
theorem compute_error_unknown_inst_returns_none (m : BeatMatcher)
    (inst : String) (t : ℚ) (h : m.track inst = none) :
    m.compute_error inst t = (none, m) := by
  simp [BeatMatcher.compute_error, h]

/-- Witness for the amended C5 at the unknown instrument `piano`. -/
theorem compute_error_unknown_inst_returns_none_witness :
    c5M.track "piano" = none ∧
    c5M.compute_error "piano" 0 = (none, c5M) :=
  ⟨by simp [c5M, BeatMatcher.track],
   compute_error_unknown_inst_returns_none c5M "piano" 0
     (by simp [c5M, BeatMatcher.track])⟩

/-- C3: matched reference times are strictly increasing. If a
`compute_error` call for `inst` succeeds with reference time `r₁`, then —
after any further finite sequence of `compute_error` calls — the next
successful call for `inst` returns a strictly larger reference time `r₂`
(given the BeatMap invariant `dt > 0`). -/
theorem tref_strictly_increasing (m : BeatMatcher) (inst : String)
    (t₁ t₂ e₁ r₁ e₂ r₂ : ℚ) (m₁ m₂ : BeatMatcher) (l : List (String × ℚ))
    (hdt : 0 < m.dt)
    (h₁ : m.compute_error inst t₁ = (some (e₁, r₁), m₁))
    (h₂ : (BeatMatcher.runCalls m₁ l).compute_error inst t₂
            = (some (e₂, r₂), m₂)) :
    r₁ < r₂ := by
  obtain ⟨arr₁, idx₁, htr₁, hf₁, hr₁, he₁, hnext₁, hdt₁⟩ :=
    compute_error_some_shape _ _ _ _ _ _ h₁
  obtain ⟨arr₂, idx₂, htr₂, hf₂, hr₂, he₂, hnext₂, hdt₂⟩ :=
    compute_error_some_shape _ _ _ _ _ _ h₂
  have hmono : m₁.next_idx inst ≤ (BeatMatcher.runCalls m₁ l).next_idx inst :=
    runCalls_next_idx_mono m₁ l inst
  have hge₂ : (BeatMatcher.runCalls m₁ l).next_idx inst ≤ idx₂ :=
    find_next_beat_ge _ _ _ hf₂
  have hidx : idx₁ < idx₂ := by omega
  have hdtM : (BeatMatcher.runCalls m₁ l).dt = m.dt := by
    rw [runCalls_dt, hdt₁]
  rw [hr₁, hr₂, hdtM]
  have hcast : (idx₁ : ℚ) < idx₂ := by exact_mod_cast hidx
  exact mul_lt_mul_of_pos_right hcast hdt

/-- Concrete two-beat matcher for the C3 witness. -/
def c3M0 : BeatMatcher := ⟨1, [1, 1], [], [], fun _ => 0⟩

/-- Witness for C3: on the track `[1,1]` with `dt = 1`, two consecutive
successful matches return `t_ref = 0` then `t_ref = 1`, and `0 < 1`. -/
theorem tref_strictly_increasing_witness :
    (c3M0.compute_error "kick" 0).1 = some (0, 0) ∧
    (((c3M0.compute_error "kick" 0).2).compute_error "kick" 5).1
      = some (4, 1) ∧
    (0 : ℚ) < 1 := by
  have h₁ : c3M0.compute_error "kick" 0
      = (some (0, 0), (c3M0.compute_error "kick" 0).2) := by
    have hfst : (c3M0.compute_error "kick" 0).1 = some (0, 0) := by
      norm_num [c3M0, BeatMatcher.compute_error, BeatMatcher.track,
        find_next_beat, findBeatAux]
    calc c3M0.compute_error "kick" 0
        = ((c3M0.compute_error "kick" 0).1, (c3M0.compute_error "kick" 0).2) :=
          rfl
      _ = (some (0, 0), (c3M0.compute_error "kick" 0).2) := by rw [hfst]
  have h₂ : ((c3M0.compute_error "kick" 0).2).compute_error "kick" 5
      = (some (4, 1), (((c3M0.compute_error "kick" 0).2).compute_error "kick" 5).2) := by
    have hfst : (((c3M0.compute_error "kick" 0).2).compute_error "kick" 5).1
        = some (4, 1) := by
      norm_num [c3M0, BeatMatcher.compute_error, BeatMatcher.track,
        find_next_beat, findBeatAux, Function.update]
    calc ((c3M0.compute_error "kick" 0).2).compute_error "kick" 5
        = ((((c3M0.compute_error "kick" 0).2).compute_error "kick" 5).1,
           (((c3M0.compute_error "kick" 0).2).compute_error "kick" 5).2) := rfl
      _ = _ := by rw [hfst]
  refine ⟨congrArg Prod.fst h₁ , congrArg Prod.fst h₂, ?_⟩
  have := tref_strictly_increasing c3M0 "kick" 0 5 0 0 4 1
    (c3M0.compute_error "kick" 0).2
    (((c3M0.compute_error "kick" 0).2).compute_error "kick" 5).2 []
    (by norm_num [c3M0]) h₁ h₂
  exact this

/-- Concrete matcher for the C7 scenario: single track `[1,0,0,1,0,0]`
with `dt = 0.5` and cursor 0. -/
def c7M : BeatMatcher := ⟨1 / 2, [1, 0, 0, 1, 0, 0], [], [], fun _ => 0⟩

/-- C7: on track `[1,0,0,1,0,0]` with `dt = 0.5s`, the event at `t = 0.55`
matches index 0 (`t_ref = 0`, `error = 0.55`), and the immediately
following event at `t = 1.0` matches index 3, the next unconsumed flagged
slot (`t_ref = 1.5`, `error = -0.5`). -/
theorem beatmatcher_scenario :
    (c7M.compute_error "kick" (11 / 20)).1 = some (11 / 20, 0) ∧
    (((c7M.compute_error "kick" (11 / 20)).2).compute_error "kick" 1).1
      = some (-(1 / 2), 3 / 2) := by
  constructor
  · norm_num [c7M, BeatMatcher.compute_error, BeatMatcher.track,
      find_next_beat, findBeatAux]
  · norm_num [c7M, BeatMatcher.compute_error, BeatMatcher.track,
      find_next_beat, findBeatAux, Function.update]

/-- Reference data for the C8 counterexample: all three header fields
present, a negative `samples_per_array_element` making
`time_per_array_element = -1/100 ≤ 0`, and all three tracks empty. -/
def c8Ref : RefData := ⟨120, 100, -1, -1 / 100, [], [], []⟩

/-- Counterexample for C8 as stated: malformed reference data —
`dt = -1/100 ≤ 0` and empty tracks — is NOT rejected: loading succeeds
and `BeatMatcher` construction accepts it into a session, with the bad
`dt` and the empty track installed in the live matcher. -/
theorem malformed_ref_data_accepted_cex :
    load_drum_sync_data (some 120) (some 100) (some (-1)) [] [] []
      = Except.ok c8Ref ∧
    c8Ref.time_per_array_element < 0 ∧ c8Ref.kick = [] ∧
    (BeatMatcher.init c8Ref).dt < 0 ∧ (BeatMatcher.init c8Ref).kick = [] := by
  refine ⟨?_, by norm_num [c8Ref], rfl, by norm_num [BeatMatcher.init, c8Ref], rfl⟩
  simp only [load_drum_sync_data, c8Ref, Except.ok.injEq, RefData.mk.injEq]
  norm_num

/-- C8 (amended): session construction never rejects `dt ≤ 0` or empty
tracks. The only fatal conditions at load time are a missing header field
(`ValueError`, lines 51-52) and `sensor_rate_hz = 0` (`ZeroDivisionError`
from the division at line 55); whenever the three header fields are
present and `sensor_rate_hz ≠ 0`, `load_drum_sync_data` succeeds —
returning `time_per_array_element = samples_per_array_element /
sensor_rate_hz` and the given tracks verbatim — regardless of the sign
of the resulting `dt` or of track emptiness. -/
theorem load_accepts_any_ref_data (b r s : ℚ) (kick snare hit : List ℤ)
    (hr : r ≠ 0) :
    load_drum_sync_data (some b) (some r) (some s) kick snare hit
      = Except.ok ⟨b, r, s, s / r, kick, snare, hit⟩ ∧
    load_drum_sync_data none (some r) (some s) kick snare hit
      = Except.error LoadFailure.valueError ∧
    load_drum_sync_data (some b) (some 0) (some s) kick snare hit
      = Except.error LoadFailure.zeroDivisionError := by
  refine ⟨?_, rfl, ?_⟩
  · simp only [load_drum_sync_data]
    rw [if_neg hr]
  · simp [load_drum_sync_data]

/-- Witness for the amended C8: with `sensor_rate_hz = 100 ≠ 0`, empty
tracks and a negative `samples_per_array_element`, loading succeeds. -/
theorem load_accepts_any_ref_data_witness :
    (100 : ℚ) ≠ 0 ∧
    load_drum_sync_data (some 120) (some 100) (some (-1)) [] [] []
      = Except.ok ⟨120, 100, -1, -1 / 100, [], [], []⟩ := by
  have h := load_accepts_any_ref_data 120 100 (-1) [] [] [] (by norm_num)
  refine ⟨by norm_num, ?_⟩
  rw [h.1]

/-- C9: when the tempo read by a `SimpleMetronome.run` iteration is
non-positive, no tick is emitted, the interval computation `60 / bpm` is
never reached, and the scheduled `next_tick` is left unchanged (the loop
keeps polling). -/
theorem metronome_skips_nonpositive_bpm (bpm now next_tick : ℚ)
    (h : bpm ≤ 0) :
    SimpleMetronome.step bpm now next_tick
      = ⟨false, none, next_tick⟩ := by
  unfold SimpleMetronome.step
  rw [if_pos h]

/-- Witness for C9 at the concrete reading `bpm = 0`. -/
theorem metronome_skips_nonpositive_bpm_witness :
    (0 : ℚ) ≤ 0 ∧
    SimpleMetronome.step 0 7 3 = ⟨false, none, 3⟩ :=
  ⟨le_refl 0, metronome_skips_nonpositive_bpm 0 7 3 (le_refl 0)⟩
